import Mathlib

/-!
Shallow embedding of the expense-tracker core in `AI_hackathon.py`.

Modelling conventions:
* Python strings are modelled as `List Char` (`Str`); `str` injects Lean string
  literals.  Python `strip` / `lower` / `split` / lexicographic comparison are
  re-implemented over `Str` so that everything reduces in the kernel.
* Monetary values are modelled exactly: an input number (the finite double
  `float(amount)` coerces to) is the dyadic rational m * 2 ^ e it denotes
  (`PyNum.coercible m e`); a stored `amount` is an integer count of hundredths
  (cents), produced by `pyRound2`, which models CPython `round(x, 2)` on
  doubles: the exact binary value of the argument is rounded to two decimal
  digits, half to even at exact ties (the stored double is the one nearest
  that two-decimal value, so comparisons against two-decimal literals are
  decided by the cents).  `PyNum.uncoercible` stands for any value on which
  `float(...)` raises (`None`, a non-numeric string, ...).
* The global mutable state (`expenses` list and `expense_id_counter`) is an
  explicit `Store` value threaded through the operations.
* `datetime.date.today()` is an explicit `today : Str` parameter.
* The two network calls made by the Gemini functions are oracles passed as
  explicit arguments; instrumentation fields record whether a call was
  attempted, which tool of `TOOL_MAP` was dispatched, and whether the second
  (unconstrained) generation call was made.
-/

/-- Python strings, modelled as lists of characters. -/
abbrev Str := List Char

/-- Injection of Lean string literals into the model. -/
def str (s : String) : Str := s.data

/-- Python `str.strip()`: drop whitespace from both ends. -/
def pyStrip (s : Str) : Str :=
  ((s.dropWhile Char.isWhitespace).reverse.dropWhile Char.isWhitespace).reverse

/-- Python `str.lower()` (ASCII case folding). -/
def pyLower (s : Str) : Str := s.map Char.toLower

/-- Python `s.strip().lower()`, the normalization applied to categories and tags. -/
def pyNorm (s : Str) : Str := pyLower (pyStrip s)

/-- Python lexicographic string comparison `a <= b` (by code points). -/
def strLe : Str → Str → Bool
  | [], _ => true
  | _ :: _, [] => false
  | a :: as, b :: bs => if a < b then true else if b < a then false else strLe as bs

/-- Split a string on a single separator character (as `"x-y".split("-")` does). -/
def splitOnChar (c : Char) : Str → List Str
  | [] => [[]]
  | x :: xs =>
    match splitOnChar c xs with
    | [] => [[x]]
    | g :: gs => if x = c then [] :: g :: gs else (x :: g) :: gs

/-- Check that a string is non-empty and all decimal digits. -/
def allDigits (s : Str) : Bool := !s.isEmpty && s.all Char.isDigit

/-- Numeric value of a digit string. -/
def natOfDigits (s : Str) : Nat := s.foldl (fun a c => 10 * a + (c.toNat - 48)) 0

/-- Gregorian leap-year test, as used by `datetime`. -/
def isLeap (y : Nat) : Bool := (y % 4 == 0 && y % 100 != 0) || y % 400 == 0

/-- Number of days of month `m` in year `y`. -/
def daysInMonth (y m : Nat) : Nat :=
  if m = 2 then (if isLeap y then 29 else 28)
  else if m = 4 ∨ m = 6 ∨ m = 9 ∨ m = 11 then 30
  else 31

/-- Model of `datetime.datetime.strptime(s, percent-Y-m-d)`: the year is exactly
four digits, month and day one or two digits, and the result must be a valid
calendar date with year at least 1; `none` models the `ValueError` branch. -/
def parseYMD (s : Str) : Option (Nat × Nat × Nat) :=
  match splitOnChar '-' s with
  | [ys, ms, ds] =>
    if allDigits ys && allDigits ms && allDigits ds
        && ys.length == 4 && ms.length ≤ 2 && ds.length ≤ 2 then
      let y := natOfDigits ys
      let m := natOfDigits ms
      let d := natOfDigits ds
      if 1 ≤ y ∧ 1 ≤ m ∧ m ≤ 12 ∧ 1 ≤ d ∧ d ≤ daysInMonth y m then some (y, m, d)
      else none
    else none
  | _ => none

/-- Decimal digits of a natural number (auxiliary, fuel-indexed). -/
def digitsAux : Nat → Nat → Str
  | 0, _ => []
  | fuel + 1, n =>
    if n = 0 then [] else digitsAux fuel (n / 10) ++ [Char.ofNat (48 + n % 10)]

/-- Zero-padded decimal rendering of a natural number to width `w`. -/
def padNat (w n : Nat) : Str :=
  let ds := if n = 0 then [Char.ofNat 48] else digitsAux n n
  List.replicate (w - ds.length) '0' ++ ds

/-- Model of `strftime(percent-Y-m-d)`: zero-padded `YYYY-MM-DD`. -/
def fmtYMD (y m d : Nat) : Str :=
  padNat 4 y ++ [Char.ofNat 45] ++ padNat 2 m ++ [Char.ofNat 45] ++ padNat 2 d

/-- Model of `format_date` from the source: reformat a valid date string, fall
back to the current date (`today`) on a parse failure. -/
def format_date (today : Str) (date_str : Str) : Str :=
  match parseYMD date_str with
  | some (y, m, d) => fmtYMD y m d
  | none => today

/-- Result of Python `float(x)` on the dynamic value `x`: either a finite
double, represented exactly as the dyadic rational m * 2 ^ e it denotes, or a
coercion failure. -/
inductive PyNum where
  | coercible (m : Int) (e : Int)
  | uncoercible
deriving Repr, DecidableEq

/-- Round `num / den` (for positive `den`) to the nearest integer, half to
even. -/
def roundHalfEvenDiv (num den : Int) : Int :=
  let q := Int.ediv num den
  let r := num - q * den
  if 2 * r < den then q
  else if den < 2 * r then q + 1
  else if Int.emod q 2 = 0 then q else q + 1

/-- Model of CPython `round(x, 2)` on the double with exact value m * 2 ^ e:
the exact binary value is rounded to two decimal digits, half to even at exact
ties (as `double_round` does via correctly-rounded `dtoa`); the resulting
two-decimal value is returned as cents. -/
def pyRound2 (m e : Int) : Int :=
  if 0 ≤ e then m * 100 * ((2 ^ e.toNat : Nat) : Int)
  else roundHalfEvenDiv (m * 100) ((2 ^ (-e).toNat : Nat) : Int)

/-- One stored expense record (`amount` in cents). -/
structure Expense where
  id : Nat
  amount : Int
  category : Str
  date : Str
  description : Str
  tags : List Str
deriving Repr, DecidableEq

/-- The global mutable state of the module: the `expenses` list and the
`expense_id_counter`. -/
structure Store where
  expenses : List Expense
  counter : Nat
deriving Repr, DecidableEq

/-- The state at module load: no expenses, counter at 1. -/
def Store.fresh : Store := ⟨[], 1⟩

/-- Model of `add_expense`.  The fields of the record literal are evaluated in
source order: `get_next_id()` always runs (so the counter is bumped even on a
failing call); then `float(amount)` (raises on `uncoercible`), then
`category.strip().lower()` (raises when `category` is `None`), then
`format_date(date)`, then `description.strip()` (raises when `None`), then the
tag normalization.  A raise is modelled as `none` in the first component; on
success the record is appended to the store. -/
def add_expense (today : Str) (amount : PyNum) (category : Option Str)
    (description : Option Str) (date : Str) (tags : List Str) (s : Store) :
    Option Expense × Store :=
  let nid := s.counter
  let s1 : Store := ⟨s.expenses, s.counter + 1⟩
  match amount with
  | .uncoercible => (none, s1)
  | .coercible m ex =>
    match category with
    | none => (none, s1)
    | some cat =>
      let d := format_date today date
      match description with
      | none => (none, s1)
      | some desc =>
        let e : Expense :=
          { id := nid
            amount := pyRound2 m ex
            category := pyNorm cat
            date := d
            description := pyStrip desc
            tags := tags.map pyNorm }
        (some e, ⟨s1.expenses ++ [e], s1.counter⟩)

/-- Python truthiness of an optional string argument: `None` and the empty
string are both falsy, so such a criterion is not applied. -/
def supplied : Option Str → Option Str
  | none => none
  | some [] => none
  | some s => some s

/-- Model of `filter_expenses`: the four criteria are applied in sequence to
the global list; a truthy `category` / `tag` is normalized and compared for
equality / membership, a truthy date bound is passed through `format_date` and
compared lexicographically (inclusive).  Returns the filtered list and the
total amount that the returned summary string reports. -/
def filter_expenses (today : Str) (category tag start_date end_date : Option Str)
    (s : Store) : List Expense × Int :=
  let l0 := s.expenses
  let l1 := match supplied category with
    | some c => l0.filter (fun e => decide (e.category = pyNorm c))
    | none => l0
  let l2 := match supplied tag with
    | some t => l1.filter (fun e => decide (pyNorm t ∈ e.tags))
    | none => l1
  let l3 := match supplied start_date with
    | some sd => l2.filter (fun e => strLe (format_date today sd) e.date)
    | none => l2
  let l4 := match supplied end_date with
    | some ed => l3.filter (fun e => strLe e.date (format_date today ed))
    | none => l3
  (l4, (l4.map Expense.amount).sum)

/-- One invocation of `filter_expenses` against the global state: the function
only reads the globals (the comprehensions build new lists and the local name
is rebound), so the state after the call is the state before it. -/
def filter_expenses_call (today : Str) (category tag start_date end_date : Option Str)
    (s : Store) : (List Expense × Int) × Store :=
  (filter_expenses today category tag start_date end_date s, s)

/-- Model of `list_expenses`: with argument `None` the global list is shown;
the function only prints, so it returns the rows displayed and the unchanged
global state. -/
def list_expenses (expense_list : Option (List Expense)) (s : Store) :
    List Expense × Store :=
  (expense_list.getD s.expenses, s)

/-- Model of `create_dataframe` on the global list: `None` when there are no
records; otherwise the rows whose `date` parses as a timestamp are kept (the
`amount` column is always numeric in the model, so no row is dropped there). -/
def create_dataframe (s : Store) : Option (List Expense) :=
  if s.expenses.isEmpty then none
  else some (s.expenses.filter (fun e => (parseYMD e.date).isSome))

/-- Insert a string into an ascending list (auxiliary for the pandas group
ordering). -/
def insortStr (x : Str) : List Str → List Str
  | [] => [x]
  | y :: ys => if strLe x y then x :: y :: ys else y :: insortStr x ys

/-- Sort strings ascending, as `groupby` orders its keys. -/
def sortStrs (l : List Str) : List Str := l.foldr insortStr []

/-- Pandas `df.groupby(key)[amount].sum()`: the distinct keys in ascending
order, each with the sum of `amount` over its rows. -/
def groupSum (key : Expense → Str) (rows : List Expense) : List (Str × Int) :=
  (sortStrs ((rows.map key).eraseDups)).map
    (fun k => (k, ((rows.filter (fun e => key e == k)).map Expense.amount).sum))

/-- A chart handle: the Plotly figure, abstracted to the data series it
plots. -/
inductive Chart where
  | pie (categorySums : List (Str × Int))
  | line (dateSums : List (Str × Int))
deriving Repr, DecidableEq

/-- Model of `plot_category_distribution`: an error string when the dataframe
is `None` or empty, otherwise the pie figure over the per-category sums. -/
def plot_category_distribution (s : Store) : Str ⊕ Chart :=
  match create_dataframe s with
  | none => .inl (str "Not enough data to generate category distribution chart.")
  | some rows =>
    if rows.isEmpty then .inl (str "Not enough data to generate category distribution chart.")
    else .inr (.pie (groupSum Expense.category rows))

/-- Model of `plot_spending_trend`: an error string when the dataframe is
`None` or empty, otherwise the line figure over the per-date sums. -/
def plot_spending_trend (s : Store) : Str ⊕ Chart :=
  match create_dataframe s with
  | none => .inl (str "Not enough data to generate spending trend chart.")
  | some rows =>
    if rows.isEmpty then .inl (str "Not enough data to generate spending trend chart.")
    else .inr (.line (groupSum Expense.date rows))

/-- One invocation of `plot_category_distribution` against the global state
(read-only, state passed through unchanged). -/
def plot_category_distribution_call (s : Store) : (Str ⊕ Chart) × Store :=
  (plot_category_distribution s, s)

/-- One invocation of `plot_spending_trend` against the global state
(read-only, state passed through unchanged). -/
def plot_spending_trend_call (s : Store) : (Str ⊕ Chart) × Store :=
  (plot_spending_trend s, s)

/-- One element of the JSON array returned by the structured-generation call.
`amount` is the result of coercing the `amount` field (absent or non-numeric
is `uncoercible`, since `float(None)` raises just as `float` of a non-number
does); `category` / `description` are `none` when the field is absent
(`dict.get` returns `None`); `date` is `none` when absent, in which case the
call site defaults it to today. -/
structure RawItem where
  amount : PyNum
  category : Option Str
  description : Option Str
  date : Option Str
deriving Repr, DecidableEq

/-- An item inserts successfully exactly when its amount coerces and its
category and description fields are present. -/
def RawItem.ok (it : RawItem) : Bool :=
  (match it.amount with | .coercible _ _ => true | .uncoercible => false)
    && it.category.isSome && it.description.isSome

/-- The insertion loop of `parse_expenses_via_gemini`: items are added one by
one; an exception inside `add_expense` aborts the loop (first component
`none`), leaving the insertions already made in place. -/
def parse_loop (today : Str) : List RawItem → Store → Nat → Option Nat × Store
  | [], s, n => (some n, s)
  | it :: rest, s, n =>
    let r := add_expense today it.amount it.category it.description
      (it.date.getD today) [] s
    match r.1 with
    | some _ => parse_loop today rest r.2 (n + 1)
    | none => (none, r.2)

/-- Outcome of the structured-generation exchange as seen by the parser: a
transport error or an envelope / JSON-decoding failure (each raises, reaching
the generic handler), a decoded payload that is not a list, or a list of
items. -/
inductive GeminiResp where
  | badResponse
  | jsonNonList
  | jsonList (items : List RawItem)
deriving Repr, DecidableEq

/-- The message component returned by `parse_expenses_via_gemini`, one
constructor per distinct format string of the source; `ok` carries the count
of added expenses and corresponds to the only return with a non-`None` first
component. -/
inductive ParseOutcome where
  | missingKey
  | nonList
  | exn
  | ok (count : Nat)
deriving Repr, DecidableEq

/-- Full result of one `parse_expenses_via_gemini` call: its reported outcome,
the global state after the call, and whether the network call was attempted. -/
structure ParseResult where
  outcome : ParseOutcome
  store : Store
  called : Bool
deriving Repr, DecidableEq

/-- Model of `parse_expenses_via_gemini`. -/
def parse_expenses_via_gemini (today : Str) (api_key : Str) (resp : GeminiResp)
    (s : Store) : ParseResult :=
  if api_key.isEmpty then ⟨.missingKey, s, false⟩
  else
    match resp with
    | .badResponse => ⟨.exn, s, true⟩
    | .jsonNonList => ⟨.nonList, s, true⟩
    | .jsonList items =>
      match parse_loop today items s 0 with
      | (some n, s2) => ⟨.ok n, s2, true⟩
      | (none, s2) => ⟨.exn, s2, true⟩

/-- The decoded intent object (`dict.get` semantics: absent fields are
`None`). -/
structure IntentData where
  intent : Option Str
  category : Option Str
  start_date : Option Str
  end_date : Option Str
deriving Repr, DecidableEq

/-- Outcome of the intent-resolution network exchange: a transport or
decoding failure (raises into the generic handler), or a decoded intent
object. -/
inductive AgentResp where
  | badResponse
  | ok (data : IntentData)
deriving Repr, DecidableEq

/-- The user-facing message of `execute_agent_command`, one constructor per
distinct format string of the source. -/
inductive Msg where
  | apiKeyMissing
  | toolEmptyStore (intent : Str)
  | doneChart
  | chartingFailed (inner : Str)
  | doneFilter (found : Nat) (total : Int)
  | convReply (text : Str)
  | couldNotMap (intent : Str)
  | internalError
deriving Repr, DecidableEq

/-- The keys of `TOOL_MAP`. -/
def toolNames : List Str := [str "filter", str "plot_distribution", str "plot_trend"]

/-- Dispatch through `TOOL_MAP`: `filter` receives the non-`None` extracted
parameters as keyword arguments (the intent schema has no `tag` field, so that
argument is never supplied); the plot tools accept and ignore keyword
arguments. -/
def runTool (today : Str) (intent : Str) (d : IntentData) (s : Store) :
    (List Expense × Int) ⊕ (Str ⊕ Chart) :=
  if intent = str "filter" then
    .inl (filter_expenses today d.category none d.start_date d.end_date s)
  else if intent = str "plot_distribution" then .inr (plot_category_distribution s)
  else .inr (plot_spending_trend s)

/-- Result of one `execute_agent_command` call: the message and optional chart
it returns, which `TOOL_MAP` entry was invoked (if any), whether the second
unconstrained generation call was made, and whether any network call was
attempted. -/
structure AgentResult where
  message : Msg
  chart : Option Chart
  invoked : Option Str
  secondCall : Bool
  called : Bool
deriving Repr, DecidableEq

/-- Model of `execute_agent_command`.  `conv` is the reply text of the second,
unconstrained generation call (`none` when that call raises). -/
def execute_agent_command (today : Str) (api_key : Str) (resp : AgentResp)
    (conv : Option Str) (s : Store) : AgentResult × Store :=
  if api_key.isEmpty then (⟨.apiKeyMissing, none, none, false, false⟩, s)
  else
    match resp with
    | .badResponse => (⟨.internalError, none, none, false, true⟩, s)
    | .ok d =>
      let intent := pyLower (d.intent.getD (str "none"))
      if intent ∈ toolNames then
        if s.expenses.isEmpty then
          (⟨.toolEmptyStore intent, none, none, false, true⟩, s)
        else
          match runTool today intent d s with
          | .inl fr => (⟨.doneFilter fr.1.length fr.2, none, some intent, false, true⟩, s)
          | .inr (.inl errText) =>
            (⟨.chartingFailed errText, none, some intent, false, true⟩, s)
          | .inr (.inr fig) => (⟨.doneChart, some fig, some intent, false, true⟩, s)
      else if intent = str "none" ∨ intent = str "unhandled" then
        match conv with
        | some t => (⟨.convReply t, none, none, true, true⟩, s)
        | none => (⟨.internalError, none, none, true, true⟩, s)
      else (⟨.couldNotMap intent, none, none, false, true⟩, s)

/-- Arguments of one direct `add_expense` call (category and description
supplied as actual strings, as the UI layer does). -/
structure AddArgs where
  amount : PyNum
  category : Str
  description : Str
  date : Str
  tags : List Str
deriving Repr, DecidableEq

/-- A direct call succeeds exactly when its amount coerces to a number. -/
def AddArgs.succeeds (a : AddArgs) : Bool :=
  match a.amount with | .coercible _ _ => true | .uncoercible => false

/-- Run a sequence of direct `add_expense` calls against the store, collecting
the record returned by each call. -/
def runAdds (today : Str) : List AddArgs → Store → List (Option Expense) × Store
  | [], s => ([], s)
  | a :: rest, s =>
    let r := add_expense today a.amount (some a.category) (some a.description)
      a.date a.tags s
    let rec2 := runAdds today rest r.2
    (r.1 :: rec2.1, rec2.2)

example : pyRound2 6949617174986097 (-49) = 1235 := by decide
example : pyRound2 (-5) 0 = -500 := by decide
example : pyRound2 1 (-3) = 12 := by decide
example : format_date (str "2025-01-01") (str "bad-date") = str "2025-01-01" := by decide
example : format_date (str "2025-01-01") (str "2024-2-5") = str "2024-02-05" := by decide
example : parseYMD (str "2023-02-30") = none := by decide
example : parseYMD (str "garbage") = none := by decide
example : pyNorm (str " Groceries ") = str "groceries" := by decide
example :
    (add_expense (str "2025-01-01") (.coercible 6949617174986097 (-49))
      (some (str " Groceries "))
      (some (str " Milk ")) (str "bad-date") [str "Dairy "] Store.fresh).1 =
    some ⟨1, 1235, str "groceries", str "2025-01-01", str "Milk", [str "dairy"]⟩ := by decide

/-- A direct `add_expense` call with a coercible amount succeeds: it returns
the normalized record with the current counter as id and appends exactly that
record. -/
theorem add_expense_coercible (today : Str) (m e : Int) (cat desc date : Str)
    (tags : List Str) (s : Store) :
    add_expense today (.coercible m e) (some cat) (some desc) date tags s =
      (some ⟨s.counter, pyRound2 m e, pyNorm cat, format_date today date,
              pyStrip desc, tags.map pyNorm⟩,
       ⟨s.expenses ++ [⟨s.counter, pyRound2 m e, pyNorm cat, format_date today date,
              pyStrip desc, tags.map pyNorm⟩], s.counter + 1⟩) := rfl

/-- C2, counterexample.  A direct call with amount -5 does not fail: it
returns and stores a record whose amount is -5 (i.e. -500 cents), which is
negative.  This contradicts the claim that `add_expense` fails whenever the
amount is not a non-negative number. -/
theorem C2_counterexample :
    (add_expense (str "2025-01-01") (.coercible (-5) 0) (some (str "food"))
        (some (str "snack")) (str "2025-01-01") [] Store.fresh).1 =
      some ⟨1, -500, str "food", str "2025-01-01", str "snack", []⟩ ∧
    (add_expense (str "2025-01-01") (.coercible (-5) 0) (some (str "food"))
        (some (str "snack")) (str "2025-01-01") [] Store.fresh).2.expenses =
      [⟨1, -500, str "food", str "2025-01-01", str "snack", []⟩] ∧
    (-500 : Int) < 0 := by
  refine ⟨rfl, rfl, by decide⟩

/-- C2, amended.  `add_expense` fails exactly when its amount argument cannot
be coerced to a number at all: a coercible amount always succeeds, and the
rounded value is stored with its sign unchecked, so stored amounts may be
negative. -/
theorem C2_amended_no_sign_check (today : Str) (m e : Int) (cat desc date : Str)
    (tags : List Str) (s : Store) :
    (add_expense today (.coercible m e) (some cat) (some desc) date tags s).1.isSome
      = true ∧
    (add_expense today .uncoercible (some cat) (some desc) date tags s).1 = none ∧
    ((add_expense today (.coercible m e) (some cat) (some desc) date tags s).1.map
        Expense.amount) = some (pyRound2 m e) := ⟨rfl, rfl, rfl⟩

/-- C4.  The example call of the spec yields the record with amount 12.35
(1235 cents), category "groceries", description "Milk", date equal to the
current date, and tags ["dairy"].  The Python literal 12.345 denotes the
double 6949617174986097 * 2 ^ (-49), whose exact value lies just above the
12.345 tie, so `round(float(12.345), 2)` is 12.35. -/
theorem C4_example_record (today : Str) :
    (add_expense today (.coercible 6949617174986097 (-49)) (some (str " Groceries "))
        (some (str " Milk ")) (str "bad-date") [str "Dairy "] Store.fresh).1 =
      some ⟨1, 1235, str "groceries", today, str "Milk", [str "dairy"]⟩ := by
  have h1 : pyRound2 6949617174986097 (-49) = 1235 := by decide
  have h2 : pyNorm (str " Groceries ") = str "groceries" := by decide
  have h3 : pyStrip (str " Milk ") = str "Milk" := by decide
  have h4 : pyNorm (str "Dairy ") = str "dairy" := by decide
  have h5 : parseYMD (str "bad-date") = none := by decide
  rw [add_expense_coercible, format_date, h5]
  simp [h1, h2, h3, h4, Store.fresh]

/-- C8.  With an empty credential both entry points return the
missing-credential message immediately: no network call is attempted, no
chart is produced, and the store is unchanged. -/
theorem C8_missing_credential_fails_fast (today : Str) (presp : GeminiResp)
    (aresp : AgentResp) (conv : Option Str) (s : Store) :
    parse_expenses_via_gemini today [] presp s = ⟨.missingKey, s, false⟩ ∧
    execute_agent_command today [] aresp conv s =
      (⟨.apiKeyMissing, none, none, false, false⟩, s) := ⟨rfl, rfl⟩

/-- C9.  The read operations (filter, both plots, list) return the store
exactly as it was, and `add_expense` only ever appends: the previously stored
records are never updated or deleted. -/
theorem C9_read_ops_frame (today : Str) (category tag start_date end_date : Option Str)
    (data : Option (List Expense)) (s : Store) :
    (filter_expenses_call today category tag start_date end_date s).2 = s ∧
    (plot_category_distribution_call s).2 = s ∧
    (plot_spending_trend_call s).2 = s ∧
    (list_expenses data s).2 = s ∧
    (∀ (amount : PyNum) (c dsc : Option Str) (dt : Str) (tags : List Str),
      ∃ tail, (add_expense today amount c dsc dt tags s).2.expenses
        = s.expenses ++ tail) := by
  refine ⟨rfl, rfl, rfl, rfl, ?_⟩
  intro amount c dsc dt tags
  cases amount with
  | uncoercible => exact ⟨[], by simp [add_expense]⟩
  | coercible m e =>
    cases c with
    | none => exact ⟨[], by simp [add_expense]⟩
    | some cat =>
      cases dsc with
      | none => exact ⟨[], by simp [add_expense]⟩
      | some d0 => exact ⟨_, rfl⟩

/-- If every item of the batch is insertable, the insertion loop succeeds and
counts all of them. -/
theorem parse_loop_all_ok (today : Str) :
    ∀ (items : List RawItem) (s : Store) (n : Nat),
      (∀ it ∈ items, it.ok = true) →
      (parse_loop today items s n).1 = some (n + items.length) := by
  intro items
  induction items with
  | nil => intro s n _; simp [parse_loop]
  | cons it rest ih =>
    intro s n h
    have hit : it.ok = true := h it (List.mem_cons_self it rest)
    rcases it with ⟨amt, c, dsc, dt⟩
    rcases amt with ⟨m0, e0⟩ | _
    · rcases c with _ | cat
      · simp [RawItem.ok] at hit
      · rcases dsc with _ | d0
        · simp [RawItem.ok] at hit
        · have hrest : ∀ a ∈ rest, a.ok = true := fun a ha => h a (List.mem_cons_of_mem _ ha)
          simp only [parse_loop, add_expense_coercible]
          rw [ih _ (n + 1) hrest]
          simp only [List.length_cons]
          congr 1
          omega
    · simp [RawItem.ok] at hit

/-- If some item of the batch is not insertable, the insertion loop aborts
with an exception. -/
theorem parse_loop_some_bad (today : Str) :
    ∀ (items : List RawItem) (s : Store) (n : Nat),
      (∃ it ∈ items, it.ok = false) →
      (parse_loop today items s n).1 = none := by
  intro items
  induction items with
  | nil => intro s n h; rcases h with ⟨it, hmem, _⟩; cases hmem
  | cons it rest ih =>
    intro s n h
    by_cases hhd : it.ok = true
    · rcases it with ⟨amt, c, dsc, dt⟩
      rcases amt with ⟨m0, e0⟩ | _
      · rcases c with _ | cat
        · simp [RawItem.ok] at hhd
        · rcases dsc with _ | d0
          · simp [RawItem.ok] at hhd
          · rcases h with ⟨bad, hmem, hbad⟩
            rcases List.mem_cons.mp hmem with rfl | htl
            · simp [RawItem.ok] at hbad
            · simp only [parse_loop, add_expense_coercible]
              exact ih _ (n + 1) ⟨bad, htl, hbad⟩
      · simp [RawItem.ok] at hhd
    · rcases it with ⟨amt, c, dsc, dt⟩
      rcases amt with ⟨m0, e0⟩ | _
      · rcases c with _ | cat
        · simp [parse_loop, add_expense]
        · rcases dsc with _ | d0
          · simp [parse_loop, add_expense]
          · exfalso; exact hhd rfl
      · simp [parse_loop, add_expense]

/-- C1, counterexample.  A well-formed two-element batch whose second element
has an uncoercible amount: the call reports a failure (`exn`), yet the first
element of the batch has been inserted — the store is not left as it was, so
the batch is partially committed. -/
theorem C1_counterexample :
    parse_expenses_via_gemini (str "2025-01-01") (str "k")
      (.jsonList
        [⟨.coercible 5 0, some (str "food"), some (str "apples"), some (str "2025-01-02")⟩,
         ⟨.uncoercible, some (str "x"), some (str "y"), none⟩]) Store.fresh =
    ⟨.exn, ⟨[⟨1, 500, str "food", str "2025-01-02", str "apples", []⟩], 3⟩, true⟩ := by
  decide

/-- C1, amended.  With a credential present: a transport or JSON-decoding
failure, or a decoded payload that is not a list, reports a failure and leaves
the store exactly as it was; a well-formed list whose elements are all
insertable is committed entirely (success with the full count); a list with
some non-insertable element reports a failure, but the elements inserted
before the failing one remain (the no-partial-commit guarantee holds only for
the non-array case). -/
theorem C1_amended_fail_closed (today key : Str) (s : Store) (items : List RawItem)
    (hk : key.isEmpty = false) :
    (parse_expenses_via_gemini today key .badResponse s
        = ⟨.exn, s, true⟩) ∧
    (parse_expenses_via_gemini today key .jsonNonList s
        = ⟨.nonList, s, true⟩) ∧
    ((∀ it ∈ items, it.ok = true) →
      (parse_expenses_via_gemini today key (.jsonList items) s).outcome
        = .ok items.length) ∧
    ((∃ it ∈ items, it.ok = false) →
      (parse_expenses_via_gemini today key (.jsonList items) s).outcome = .exn) := by
  refine ⟨?_, ?_, ?_, ?_⟩
  · simp [parse_expenses_via_gemini, hk]
  · simp [parse_expenses_via_gemini, hk]
  · intro h
    have hl := parse_loop_all_ok today items s 0 h
    rcases hpl : parse_loop today items s 0 with ⟨r1, s2⟩
    rw [hpl] at hl
    simp at hl
    simp [parse_expenses_via_gemini, hk, hpl, hl]
  · intro h
    have hl := parse_loop_some_bad today items s 0 h
    rcases hpl : parse_loop today items s 0 with ⟨r1, s2⟩
    rw [hpl] at hl
    simp at hl
    simp [parse_expenses_via_gemini, hk, hpl, hl]

/-- C1, witness for the amended theorem: a concrete all-insertable batch of
one item is committed with count 1. -/
theorem C1_amended_witness :
    (parse_expenses_via_gemini (str "2025-01-01") (str "k")
      (.jsonList
        [⟨.coercible 5 0, some (str "food"), some (str "apples"), some (str "2025-01-02")⟩])
      Store.fresh).outcome = .ok 1 :=
  (C1_amended_fail_closed (str "2025-01-01") (str "k") Store.fresh
    [⟨.coercible 5 0, some (str "food"), some (str "apples"), some (str "2025-01-02")⟩]
    (by decide)).2.2.1 (by decide)

/-- Running a sequence of succeeding direct adds from any store returns the
records it stores: consecutive ids from the current counter, all appended in
order. -/
theorem runAdds_spec (today : Str) :
    ∀ (args : List AddArgs) (s : Store), (∀ a ∈ args, a.succeeds = true) →
      ∃ es : List Expense,
        (runAdds today args s).1 = es.map some ∧
        es.map Expense.id = List.range' s.counter args.length ∧
        (runAdds today args s).2 = ⟨s.expenses ++ es, s.counter + args.length⟩ := by
  intro args
  induction args with
  | nil =>
    intro s _
    exact ⟨[], rfl, by simp [List.range'], by simp [runAdds]⟩
  | cons a rest ih =>
    intro s h
    have ha : a.succeeds = true := h a (List.mem_cons_self a rest)
    rcases a with ⟨amt, cat, dsc, dt, tg⟩
    rcases amt with ⟨m0, e0⟩ | _
    swap
    · simp [AddArgs.succeeds] at ha
    have hrest : ∀ x ∈ rest, x.succeeds = true := fun x hx => h x (List.mem_cons_of_mem _ hx)
    obtain ⟨es, h1, h2, h3⟩ := ih ⟨s.expenses ++ [⟨s.counter, pyRound2 m0 e0, pyNorm cat,
      format_date today dt, pyStrip dsc, tg.map pyNorm⟩], s.counter + 1⟩ hrest
    refine ⟨⟨s.counter, pyRound2 m0 e0, pyNorm cat, format_date today dt,
      pyStrip dsc, tg.map pyNorm⟩ :: es, ?_, ?_, ?_⟩
    · simp only [runAdds, add_expense_coercible]
      simp [h1]
    · simp only [List.map_cons, List.length_cons, h2]
      exact (List.range'_succ s.counter rest.length 1).symm
    · simp only [runAdds, add_expense_coercible]
      rw [h3]
      simp only [List.append_assoc, List.singleton_append, List.length_cons]
      congr 1
      omega

/-- C3.  From a fresh store, every sequence of succeeding `add_expense` calls
returns some record for each call, the returned ids are exactly 1, 2, ...,
n in order (strictly increasing from 1, no gaps, no repeats), and the store
afterwards holds exactly the returned records (so each stored id equals the
returned id). -/
theorem C3_ids_consecutive_from_one (today : Str) (args : List AddArgs)
    (h : ∀ a ∈ args, a.succeeds = true) :
    ∃ es : List Expense,
      (runAdds today args Store.fresh).1 = es.map some ∧
      es.map Expense.id = List.range' 1 args.length ∧
      (runAdds today args Store.fresh).2.expenses = es := by
  obtain ⟨es, h1, h2, h3⟩ := runAdds_spec today args Store.fresh h
  exact ⟨es, h1, h2, by rw [h3]; simp [Store.fresh]⟩

/-- C3, witness: two concrete adds from a fresh store return ids 1 and 2 and
store exactly those records. -/
theorem C3_witness :
    ∃ es : List Expense,
      (runAdds (str "2025-01-01")
        [⟨.coercible 5 0, str "food", str "apples", str "2025-01-02", []⟩,
         ⟨.coercible 6949617174986097 (-49), str " Groceries ", str " Milk ", str "bad-date", [str "Dairy "]⟩]
        Store.fresh).1 = es.map some ∧
      es.map Expense.id = List.range' 1 2 ∧
      (runAdds (str "2025-01-01")
        [⟨.coercible 5 0, str "food", str "apples", str "2025-01-02", []⟩,
         ⟨.coercible 6949617174986097 (-49), str " Groceries ", str " Milk ", str "bad-date", [str "Dairy "]⟩]
        Store.fresh).2.expenses = es :=
  C3_ids_consecutive_from_one (str "2025-01-01")
    [⟨.coercible 5 0, str "food", str "apples", str "2025-01-02", []⟩,
     ⟨.coercible 6949617174986097 (-49), str " Groceries ", str " Milk ", str "bad-date", [str "Dairy "]⟩]
    (by decide)

/-- Membership characterization of `filter_expenses`: a record is selected iff
it is stored and satisfies every supplied criterion, the date bounds being
compared after `format_date`. -/
theorem filter_expenses_mem (today : Str) (category tag start_date end_date : Option Str)
    (s : Store) (e : Expense) :
    e ∈ (filter_expenses today category tag start_date end_date s).1 ↔
      e ∈ s.expenses ∧
      (∀ c, supplied category = some c → e.category = pyNorm c) ∧
      (∀ t, supplied tag = some t → pyNorm t ∈ e.tags) ∧
      (∀ b, supplied start_date = some b → strLe (format_date today b) e.date = true) ∧
      (∀ b, supplied end_date = some b → strLe e.date (format_date today b) = true) := by
  rcases hc : supplied category with _ | c <;>
  rcases ht : supplied tag with _ | t <;>
  rcases hsd : supplied start_date with _ | sd <;>
  rcases hed : supplied end_date with _ | ed <;>
    simp [filter_expenses, hc, ht, hsd, hed, List.mem_filter, and_assoc] <;> tauto

/-- C5.  `filter_expenses` selects exactly the stored records meeting all the
supplied criteria (absent criteria do not constrain): normalized category
equality, normalized tag membership, and inclusive lexicographic date bounds
(for bounds already in canonical form); the reported total is the sum of the
amounts of the selected records, and with no criteria every record is
selected. -/
theorem C5_filter_all_criteria (today : Str) (category tag start_date end_date : Option Str)
    (s : Store)
    (hs : ∀ b, supplied start_date = some b → format_date today b = b)
    (he : ∀ b, supplied end_date = some b → format_date today b = b) :
    (∀ e, e ∈ (filter_expenses today category tag start_date end_date s).1 ↔
      e ∈ s.expenses ∧
      (∀ c, supplied category = some c → e.category = pyNorm c) ∧
      (∀ t, supplied tag = some t → pyNorm t ∈ e.tags) ∧
      (∀ b, supplied start_date = some b → strLe b e.date = true) ∧
      (∀ b, supplied end_date = some b → strLe e.date b = true)) ∧
    (filter_expenses today category tag start_date end_date s).2 =
      (((filter_expenses today category tag start_date end_date s).1).map
        Expense.amount).sum ∧
    (filter_expenses today none none none none s).1 = s.expenses := by
  refine ⟨?_, rfl, rfl⟩
  intro e
  refine (filter_expenses_mem today category tag start_date end_date s e).trans ?_
  refine and_congr .rfl (and_congr .rfl (and_congr .rfl (and_congr ?_ ?_)))
  · exact ⟨fun h b hb => (hs b hb) ▸ h b hb,
      fun h b hb => by rw [hs b hb]; exact h b hb⟩
  · exact ⟨fun h b hb => (he b hb) ▸ h b hb,
      fun h b hb => by rw [he b hb]; exact h b hb⟩

/-- C5, witness: the theorem instantiated at a concrete store with two
records, a category criterion and a canonical start-date bound. -/
theorem C5_witness :
    (∀ e, e ∈ (filter_expenses (str "2025-06-15") (some (str " Food ")) none
        (some (str "2025-01-01")) none
        ⟨[⟨1, 500, str "food", str "2025-03-01", str "a", []⟩,
          ⟨2, 300, str "fuel", str "2024-12-31", str "b", []⟩], 3⟩).1 ↔
      e ∈ (⟨[⟨1, 500, str "food", str "2025-03-01", str "a", []⟩,
          ⟨2, 300, str "fuel", str "2024-12-31", str "b", []⟩], 3⟩ : Store).expenses ∧
      (∀ c, supplied (some (str " Food ")) = some c → e.category = pyNorm c) ∧
      (∀ t, supplied (none : Option Str) = some t → pyNorm t ∈ e.tags) ∧
      (∀ b, supplied (some (str "2025-01-01")) = some b → strLe b e.date = true) ∧
      (∀ b, supplied (none : Option Str) = some b → strLe e.date b = true)) ∧
    (filter_expenses (str "2025-06-15") (some (str " Food ")) none
        (some (str "2025-01-01")) none
        ⟨[⟨1, 500, str "food", str "2025-03-01", str "a", []⟩,
          ⟨2, 300, str "fuel", str "2024-12-31", str "b", []⟩], 3⟩).2 =
      (((filter_expenses (str "2025-06-15") (some (str " Food ")) none
        (some (str "2025-01-01")) none
        ⟨[⟨1, 500, str "food", str "2025-03-01", str "a", []⟩,
          ⟨2, 300, str "fuel", str "2024-12-31", str "b", []⟩], 3⟩).1).map
        Expense.amount).sum ∧
    (filter_expenses (str "2025-06-15") none none none none
        ⟨[⟨1, 500, str "food", str "2025-03-01", str "a", []⟩,
          ⟨2, 300, str "fuel", str "2024-12-31", str "b", []⟩], 3⟩).1 =
      (⟨[⟨1, 500, str "food", str "2025-03-01", str "a", []⟩,
          ⟨2, 300, str "fuel", str "2024-12-31", str "b", []⟩], 3⟩ : Store).expenses :=
  C5_filter_all_criteria (str "2025-06-15") (some (str " Food ")) none
    (some (str "2025-01-01")) none
    ⟨[⟨1, 500, str "food", str "2025-03-01", str "a", []⟩,
      ⟨2, 300, str "fuel", str "2024-12-31", str "b", []⟩], 3⟩
    (by intro b hb; injection hb with h; subst h; decide)
    (by intro b hb; exact Option.noConfusion hb)

/-- C10.  A truthy but malformed date bound is silently replaced by the
current date: filtering with such a start (resp. end) bound keeps exactly the
records dated today or later (resp. today or earlier). -/
theorem C10_malformed_bound_becomes_today (today sd ed : Str) (s : Store)
    (hsd : sd ≠ []) (hpsd : parseYMD sd = none)
    (hed : ed ≠ []) (hped : parseYMD ed = none) :
    (filter_expenses today none none (some sd) none s).1 =
      s.expenses.filter (fun e => strLe today e.date) ∧
    (filter_expenses today none none none (some ed) s).1 =
      s.expenses.filter (fun e => strLe e.date today) := by
  constructor
  · rcases sd with _ | ⟨c, cs⟩
    · exact absurd rfl hsd
    · simp [filter_expenses, supplied, format_date, hpsd]
  · rcases ed with _ | ⟨c, cs⟩
    · exact absurd rfl hed
    · simp [filter_expenses, supplied, format_date, hped]

/-- C10, witness: with the malformed bounds "garbage" and "nope" and one
record dated after today, the selections are exactly those of the today-bound
filters. -/
theorem C10_witness :
    (filter_expenses (str "2025-06-15") none none (some (str "garbage")) none
        ⟨[⟨1, 500, str "food", str "2025-07-01", str "a", []⟩], 2⟩).1 =
      ([⟨1, 500, str "food", str "2025-07-01", str "a", []⟩] :
        List Expense).filter (fun e => strLe (str "2025-06-15") e.date) ∧
    (filter_expenses (str "2025-06-15") none none none (some (str "nope"))
        ⟨[⟨1, 500, str "food", str "2025-07-01", str "a", []⟩], 2⟩).1 =
      ([⟨1, 500, str "food", str "2025-07-01", str "a", []⟩] :
        List Expense).filter (fun e => strLe e.date (str "2025-06-15")) :=
  C10_malformed_bound_becomes_today (str "2025-06-15") (str "garbage") (str "nope")
    ⟨[⟨1, 500, str "food", str "2025-07-01", str "a", []⟩], 2⟩
    (by decide) (by decide) (by decide) (by decide)

/-- On a non-empty store whose dates all parse, the category-distribution
plot succeeds and charts the per-category sums. -/
theorem plot_category_distribution_nonempty (s : Store)
    (hne : s.expenses ≠ [])
    (hdates : ∀ e ∈ s.expenses, (parseYMD e.date).isSome = true) :
    plot_category_distribution s =
      .inr (.pie (groupSum Expense.category s.expenses)) := by
  have hfilter : s.expenses.filter (fun e => (parseYMD e.date).isSome) = s.expenses :=
    List.filter_eq_self.mpr hdates
  have hie : s.expenses.isEmpty = false := by
    rcases h : s.expenses with _ | ⟨a, l⟩
    · exact absurd h hne
    · rfl
  simp [plot_category_distribution, create_dataframe, hie, hfilter]

/-- C6.  With a credential present: for any resolved intent that is one of the
three dispatchable tools, an empty store short-circuits to the no-expenses
message with no chart and without invoking the dispatched tool; on a non-empty
store (with parseable dates) the `plot_distribution` intent invokes the
category aggregation and returns a chart handle carrying it. -/
theorem C6_empty_store_guard (today key : Str) (d : IntentData) (conv : Option Str)
    (s : Store) (hk : key.isEmpty = false) :
    (pyLower (d.intent.getD (str "none")) ∈ toolNames → s.expenses = [] →
      (execute_agent_command today key (.ok d) conv s).1 =
        ⟨.toolEmptyStore (pyLower (d.intent.getD (str "none"))), none, none,
          false, true⟩) ∧
    (pyLower (d.intent.getD (str "none")) = str "plot_distribution" →
      s.expenses ≠ [] →
      (∀ e ∈ s.expenses, (parseYMD e.date).isSome = true) →
      ((execute_agent_command today key (.ok d) conv s).1.invoked
          = some (str "plot_distribution") ∧
       (execute_agent_command today key (.ok d) conv s).1.chart
          = some (.pie (groupSum Expense.category s.expenses)))) := by
  constructor
  · intro hmem hemp
    simp [execute_agent_command, hk, hmem, hemp]
  · intro hi hne hdates
    have hplot := plot_category_distribution_nonempty s hne hdates
    have hmem : pyLower (d.intent.getD (str "none")) ∈ toolNames := by
      rw [hi]; decide
    have hie : s.expenses.isEmpty = false := by
      rcases h : s.expenses with _ | ⟨a, l⟩
      · exact absurd h hne
      · rfl
    have hnf : str "plot_distribution" ≠ str "filter" := by decide
    have hmem2 : str "plot_distribution" ∈ toolNames := by decide
    simp [execute_agent_command, hk, hmem, hmem2, hie, runTool, hi, hnf, hplot]

/-- C6, witness: on a one-record store the `plot_distribution` intent yields
an invoked aggregation and a pie-chart handle over it. -/
theorem C6_witness :
    ((execute_agent_command (str "2025-01-01") (str "k")
        (.ok ⟨some (str "plot_distribution"), none, none, none⟩) none
        ⟨[⟨1, 500, str "food", str "2025-01-01", str "x", []⟩], 2⟩).1.invoked
      = some (str "plot_distribution")) ∧
    ((execute_agent_command (str "2025-01-01") (str "k")
        (.ok ⟨some (str "plot_distribution"), none, none, none⟩) none
        ⟨[⟨1, 500, str "food", str "2025-01-01", str "x", []⟩], 2⟩).1.chart
      = some (.pie (groupSum Expense.category
          [⟨1, 500, str "food", str "2025-01-01", str "x", []⟩]))) :=
  (C6_empty_store_guard (str "2025-01-01") (str "k")
    ⟨some (str "plot_distribution"), none, none, none⟩ none
    ⟨[⟨1, 500, str "food", str "2025-01-01", str "x", []⟩], 2⟩
    (by decide)).2 (by decide) (by decide) (by decide)

/-- C7, counterexample.  A resolved label outside the dispatch table that is
neither "none" nor "unhandled" — here "chitchat" — does not trigger the second
generative call (even though a conversational reply is available): the command
returns the could-not-map message with no chart and `secondCall = false`. -/
theorem C7_counterexample :
    (execute_agent_command (str "2025-01-01") (str "k")
        (.ok ⟨some (str "chitchat"), none, none, none⟩) (some (str "hello"))
        Store.fresh).1 =
      ⟨.couldNotMap (str "chitchat"), none, none, false, true⟩ ∧
    (execute_agent_command (str "2025-01-01") (str "k")
        (.ok ⟨some (str "chitchat"), none, none, none⟩) (some (str "hello"))
        Store.fresh).1.secondCall = false := by
  refine ⟨by decide, by decide⟩

/-- C7, amended.  For a resolved label outside the dispatch table, only the
exact labels "none" and "unhandled" (after lowercasing) issue the second,
unconstrained generative call and return its reply with no chart; any other
unrecognized label returns the could-not-map message, with no chart and no
second call. -/
theorem C7_amended_fallback_only_none_unhandled (today key : Str) (d : IntentData)
    (conv : Option Str) (s : Store) (hk : key.isEmpty = false)
    (hnotool : pyLower (d.intent.getD (str "none")) ∉ toolNames) :
    ((pyLower (d.intent.getD (str "none")) = str "none" ∨
      pyLower (d.intent.getD (str "none")) = str "unhandled") →
      ∀ t, conv = some t →
      (execute_agent_command today key (.ok d) conv s).1 =
        ⟨.convReply t, none, none, true, true⟩) ∧
    ((pyLower (d.intent.getD (str "none")) ≠ str "none" ∧
      pyLower (d.intent.getD (str "none")) ≠ str "unhandled") →
      (execute_agent_command today key (.ok d) conv s).1 =
        ⟨.couldNotMap (pyLower (d.intent.getD (str "none"))), none, none,
          false, true⟩) := by
  constructor
  · intro hor t hconv
    subst hconv
    simp [execute_agent_command, hk, hnotool, hor]
  · intro hand
    simp [execute_agent_command, hk, hnotool, hand.1, hand.2]

/-- C7, witness for the amended theorem: the label "none" with an available
reply returns that reply as the message with no chart. -/
theorem C7_witness :
    (execute_agent_command (str "2025-01-01") (str "k")
        (.ok ⟨some (str "none"), none, none, none⟩) (some (str "hi"))
        Store.fresh).1 =
      ⟨.convReply (str "hi"), none, none, true, true⟩ :=
  (C7_amended_fallback_only_none_unhandled (str "2025-01-01") (str "k")
    ⟨some (str "none"), none, none, none⟩ (some (str "hi")) Store.fresh
    (by decide) (by decide)).1 (Or.inl (by decide)) (str "hi") rfl
